import Mathlib

/-!
# Verification of the personal-assistant repository against its specification

This file shallowly embeds the parts of the repository that the specification
talks about and proves (or refutes) the specification claims.

* Python dictionaries are embedded as association lists with Python dict
  semantics (first occurrence wins on lookup, assignment replaces in place,
  new keys are appended at the end).
* The on-disk preference store (`user_data/{user_id}_preferences.json`) is
  embedded as a map from user id to the file state: absent, present but
  unparseable, or present with a parsed dictionary.
* Calls to `datetime.datetime.now()` are embedded as explicit string
  parameters holding the formatted timestamp.
* External network calls (Gmail / Calendar API, the hosted agent runner) are
  embedded as explicit outcome parameters: either a result value or an
  exception marker.
-/

/-- A Python value as it appears in the preference dictionaries: a string,
a boolean, or an integer. -/
inductive PValue where
  | s (v : String)
  | b (v : Bool)
  | n (v : Int)
deriving DecidableEq, Repr

/-- Python `repr` of a `PValue` as it appears inside `str(dict)`. -/
def PValue.pyRepr : PValue → String
  | .s v => "'" ++ v ++ "'"
  | .b true => "True"
  | .b false => "False"
  | .n v => toString v

/-- A Python dictionary with string keys, embedded as an association list in
insertion order. -/
def Dict : Type := List (String × PValue)

instance : DecidableEq Dict := by unfold Dict; infer_instance

instance : Membership (String × PValue) Dict := by unfold Dict; infer_instance

instance : Append Dict := by unfold Dict; infer_instance

/-- Dictionary lookup (`d[k]` / `d.get(k)`): the first entry with key `k`. -/
def dget : Dict → String → Option PValue
  | [], _ => none
  | kv :: rest, key => if kv.1 = key then some kv.2 else dget rest key

/-- Dictionary assignment (`d[k] = v`): replaces the value in place when the
key exists, otherwise appends the new entry at the end, exactly as a Python
dict does. -/
def dinsert : Dict → String → PValue → Dict
  | [], key, v => [(key, v)]
  | kv :: rest, key, v =>
      if kv.1 = key then (kv.1, v) :: rest else kv :: dinsert rest key v

/-- Python `d.update(u)`: assign every entry of `u` into `d`, in order. -/
def dupdate (d : Dict) (u : Dict) : Dict :=
  u.foldl (fun acc kv => dinsert acc kv.1 kv.2) d

/-- The key list of a dictionary, in insertion order. -/
def dkeys (d : Dict) : List String := d.map (fun kv => kv.1)

/-- The state of one preference file: `none` when the file holds text that
`json.load` cannot parse, `some d` when it parses to the dictionary `d`. -/
def FileData : Type := Option Dict

instance : DecidableEq FileData := by unfold FileData; infer_instance

/-- The preference directory `user_data/`, as a map from user id to the
state of `user_data/{user_id}_preferences.json`; a user id that is absent
from the list has no preference file. -/
def Store : Type := List (String × FileData)

instance : DecidableEq Store := by unfold Store; infer_instance

/-- Look up the preference file of a user id (`os.path.exists` plus read). -/
def fslookup : Store → String → Option FileData
  | [], _ => none
  | e :: rest, uid => if e.1 = uid then some e.2 else fslookup rest uid

/-- Write a preference file (`save_json_file` with the open for writing
succeeding), replacing any previous file of that user id. -/
def fswrite : Store → String → FileData → Store
  | [], uid, fd => [(uid, fd)]
  | e :: rest, uid, fd =>
      if e.1 = uid then (e.1, fd) :: rest else e :: fswrite rest uid fd

/-- `load_json_file` applied to an existing file: parse failures are caught
and turned into the empty dictionary. -/
def load_json_file (fd : FileData) : Dict := fd.getD []

/-- The default preference record built by `load_user_preferences` when no
preference file exists, with `now` standing for
`format_datetime(datetime.datetime.now())`.  The entry order is the order of
the Python dict literal. -/
def default_prefs (user_id now : String) : Dict :=
  [("user_id", .s user_id),
   ("created_at", .s now),
   ("theme", .s "light"),
   ("notifications_enabled", .b true),
   ("email_signature", .s ""),
   ("preferred_greeting", .s "Hello"),
   ("creativity_level", .s "balanced")]

/-- `load_user_preferences(user_id)`: when no file exists, write and return
the default record; otherwise parse and return the file content.  Returns
the record together with the resulting store. -/
def load_user_preferences (st : Store) (user_id now : String) : Dict × Store :=
  match fslookup st user_id with
  | none =>
      let dp := default_prefs user_id now
      (dp, fswrite st user_id (some dp))
  | some fd => (load_json_file fd, st)

/-- `update_user_preferences(user_id, updates)`: load (creating defaults at
time `now1` when needed), shallow-merge `updates`, stamp `updated_at` with
`now2`, and write the file back. -/
def update_user_preferences (st : Store) (user_id : String) (updates : Dict)
    (now1 now2 : String) : Store :=
  let lp := load_user_preferences st user_id now1
  let prefs := dinsert (dupdate lp.1 updates) "updated_at" (.s now2)
  fswrite lp.2 user_id (some prefs)

/-- The documented key set of a `UserPreferences` record, per the
specification data-model table. -/
def documentedPrefKeys : List String :=
  ["user_id", "theme", "notifications_enabled", "email_signature",
   "preferred_greeting", "creativity_level", "created_at", "updated_at"]

/-- The stored preference record used in the C3 counterexample: `theme` and
`updated_at` were both set before the update. -/
def c3OldPrefs : Dict :=
  [("theme", PValue.s "light"), ("updated_at", PValue.s "2024-01-01 00:00:00")]

/-- The store holding `c3OldPrefs` for user `u`. -/
def c3Store : Store := [("u", some c3OldPrefs)]

/-- The previously stored record used in the C8 witness. -/
def c8OldPrefs : Dict :=
  [("theme", PValue.s "light"), ("creativity_level", PValue.s "balanced")]

/-- The update dictionary used in the C8 witness. -/
def c8Updates : Dict := [("theme", PValue.s "dark"), ("volume", PValue.n 5)]

/-- Python `str` applied to a preference dictionary, as interpolated into the
f-string `f"User preferences: {user_prefs}"` of `process_message`. -/
def dictPyRepr (d : Dict) : String :=
  "\x7b" ++
    String.intercalate ", " (d.map (fun kv => "'" ++ kv.1 ++ "': " ++ kv.2.pyRepr)) ++
    "\x7d"

/-- One `{"role": ..., "content": ...}` entry of the conversation memory. -/
structure Msg where
  role : String
  content : String
deriving DecidableEq, Repr

/-- The outcome of one `Runner.run` call: the final output string on
success, or an exception. -/
inductive RunnerOutcome where
  | ok (out : String)
  | exc
deriving DecidableEq, Repr

/-- The fixed apology returned by `AssistantAgent.process_message` when the
runner raises. -/
def assistantApology : String :=
  "I'm sorry, I encountered an error while processing your message. Please try again."

/-- The fixed apology returned by `EmailAgent.process_message` when the
runner raises. -/
def emailApology : String :=
  "I'm sorry, I encountered an error while processing your email request. Please try again."

/-- The memory cap of `process_message`: when the memory holds more than 20
entries, keep the first (system) entry and the last 19 entries
(`[memory[0]] + memory[-19:]`). -/
def trimMemory (mem : List Msg) : List Msg :=
  if 20 < mem.length then mem.take 1 ++ mem.drop (mem.length - 19) else mem

/-- `AssistantAgent.process_message(message, user_id)`: load the user
preferences (`now` is the formatted current time used when the preference
file must be created), seed the memory with a system preference message on
the first exchange, append the user message, then run the hosted runner
(`outcome`).  On success the response is appended and the memory capped; on
an exception nothing further happens to the memory and the fixed apology is
returned.  Returns the resulting store, memory and response. -/
def process_message (st : Store) (mem : List Msg) (message user_id now : String)
    (outcome : RunnerOutcome) : Store × List Msg × String :=
  let lp := load_user_preferences st user_id now
  let mem1 := if mem.isEmpty
    then mem ++ [⟨"system", "User preferences: " ++ dictPyRepr lp.1⟩]
    else mem
  let mem2 := mem1 ++ [⟨"user", message⟩]
  match outcome with
  | .ok out => (lp.2, trimMemory (mem2 ++ [⟨"assistant", out⟩]), out)
  | .exc => (lp.2, mem2, assistantApology)

/-- `EmailAgent.process_message(message)`: the runner result on success, the
fixed apology on an exception; no memory is kept. -/
def email_process_message (outcome : RunnerOutcome) : String :=
  match outcome with
  | .ok out => out
  | .exc => emailApology

/-- One call to `AssistantAgent.process_message`: its arguments plus the
outcome of the runner during that call. -/
structure CallSpec where
  user_id : String
  now : String
  message : String
  outcome : RunnerOutcome
deriving DecidableEq, Repr

/-- A sequence of `process_message` calls on one agent instance, returning
the final store and conversation memory. -/
def runCalls : Store → List Msg → List CallSpec → Store × List Msg
  | st, mem, [] => (st, mem)
  | st, mem, c :: rest =>
      let r := process_message st mem c.message c.user_id c.now c.outcome
      runCalls r.1 r.2.1 rest

/-- The 21-call sequence of the C2 counterexample: 20 exchanges in which the
runner succeeds, then one call in which it raises. -/
def c2Calls : List CallSpec :=
  List.replicate 20 ⟨"default", "t", "m", .ok "r"⟩ ++ [⟨"default", "t", "m", .exc⟩]

/-- One message of a Gmail thread as returned by
`GmailService.get_email_thread`. -/
structure ThreadMsg where
  id : String
  sender : String
  subject : String
  date : String
  body : String
deriving DecidableEq, Repr

/-- One call to an external client method performed by a tool function. -/
inductive ClientCall where
  | getThread (thread_id : String)
  | markRead (message_id : String)
  | sendMail (toAddr subject body : String)
  | insertEvent (summary startIso endIso description location : String)
deriving DecidableEq, Repr

/-- The `read_email` tool of the email agent: `thread` is the list returned
by the `get_email_thread` client call.  The result is the tool's string
output together with the client calls it performed, in order. -/
def read_email (email_id : String) (thread : List ThreadMsg) :
    String × List ClientCall :=
  if thread.isEmpty then
    ("Could not find email with ID " ++ email_id ++ ".", [.getThread email_id])
  else
    match thread.find? (fun m => m.id == email_id) with
    | none =>
        ("Could not find email with ID " ++ email_id ++ " in the thread.",
         [.getThread email_id])
    | some email =>
        ("From: " ++ email.sender ++ "\n" ++ "Subject: " ++ email.subject ++ "\n" ++
           "Date: " ++ email.date ++ "\n\n" ++ email.body ++ "\n",
         [.getThread email_id, .markRead email_id])

/-- The `send_email` tool of the assistant agent: `sendOk` is the boolean
returned by the `GmailService.send_email` client call. -/
def send_email (toAddr subject body : String) (sendOk : Bool) :
    String × List ClientCall :=
  (if sendOk then "Email sent successfully to " ++ toAddr ++ "."
   else "Failed to send email. Please try again.",
   [.sendMail toAddr subject body])

/-- The invalid-date message of the `create_calendar_event` tool. -/
def invalidDateToolMsg (e : String) : String :=
  "Invalid date format: " ++ e ++ ". Please use ISO format (YYYY-MM-DDTHH:MM:SS)."

/-- The `create_calendar_event` tool of the assistant agent.  `fromiso`
models `datetime.datetime.fromisoformat`, keeping the parsed value as its
ISO rendering (which is what `create_event` serializes back); `createOk`
tells whether the `CalendarService.create_event` client call returned an
event or `None`. -/
def create_calendar_event_tool (fromiso : String → Except String String)
    (createOk : Bool)
    (summary start_time end_time description location : String) :
    String × List ClientCall :=
  match fromiso start_time with
  | .error e => (invalidDateToolMsg e, [])
  | .ok s =>
      match fromiso end_time with
      | .error e => (invalidDateToolMsg e, [])
      | .ok en =>
          if createOk then
            ("Event '" ++ summary ++ "' created successfully.",
             [.insertEvent summary s en description location])
          else
            ("Failed to create event. Please try again.",
             [.insertEvent summary s en description location])

/-- A concrete `fromisoformat` model used by the witnesses: `"G"` is the one
valid ISO string, everything else fails to parse. -/
def wfromiso : String → Except String String := fun x =>
  if x = "G" then .ok "G" else .error ("Invalid isoformat string: " ++ x)

/-- One body part of a raw Gmail message (`payload.parts[i]`); `data` holds
the decoded body text when the part has a `data` field. -/
structure RawPart where
  mimeType : String
  data : Option String
deriving DecidableEq, Repr

/-- The payload of a raw Gmail message: headers, optional parts, and the
optional direct body data. -/
structure RawPayload where
  headers : List (String × String)
  parts : Option (List RawPart)
  bodyData : Option String
deriving DecidableEq, Repr

/-- A raw Gmail message as returned by the `messages.get` API call. -/
structure RawMessage where
  id : String
  threadId : String
  snippet : String
  payload : RawPayload
deriving DecidableEq, Repr

/-- `next((h['value'] for h in headers if h['name'] == name), dflt)`. -/
def headerOrD (headers : List (String × String)) (name dflt : String) : String :=
  match headers.find? (fun h => h.1 == name) with
  | some h => h.2
  | none => dflt

/-- `GmailService._get_message_body`: the first `text/plain` part that has
body data, else the payload's direct body data, else a fixed fallback. -/
def get_message_body (m : RawMessage) : String :=
  let fromParts :=
    match m.payload.parts with
    | some parts =>
        match parts.find? (fun p => p.mimeType == "text/plain" && p.data.isSome) with
        | some p => p.data
        | none => none
    | none => none
  match fromParts with
  | some b => b
  | none =>
      match m.payload.bodyData with
      | some b => b
      | none => "No message body found."

/-- The normalized email record built by `get_unread_emails`. -/
structure Email where
  id : String
  threadId : String
  sender : String
  subject : String
  date : String
  snippet : String
  body : String
deriving DecidableEq, Repr

/-- The record built for one message id inside the loop of
`get_unread_emails`. -/
def mkEmailFrom (message_id : String) (m : RawMessage) : Email :=
  { id := message_id
    threadId := m.threadId
    sender := headerOrD m.payload.headers "From" "Unknown"
    subject := headerOrD m.payload.headers "Subject" "No Subject"
    date := headerOrD m.payload.headers "Date" "Unknown"
    snippet := m.snippet
    body := get_message_body m }

/-- The per-message loop of `get_unread_emails`: one `messages.get` API call
per id; the first exception aborts the whole loop. -/
def collectEmails (getCall : String → Except Unit RawMessage) :
    List String → Except Unit (List Email)
  | [] => .ok []
  | i :: rest =>
      match getCall i with
      | .error e => .error e
      | .ok m =>
          match collectEmails getCall rest with
          | .error e => .error e
          | .ok es => .ok (mkEmailFrom i m :: es)

/-- `GmailService.get_unread_emails`: lazy authentication (`hasService` —
the cached handle exists; `authOk` — `authenticate()` succeeds), then the
`messages.list` call (`listCall`, already restricted to the unread query and
`max_results`) and one `messages.get` call per returned id.  Every exception
is caught and turned into `[]`. -/
def get_unread_emails (hasService authOk : Bool)
    (listCall : Except Unit (List String))
    (getCall : String → Except Unit RawMessage) : List Email :=
  if !hasService && !authOk then []
  else
    match listCall with
    | .error _ => []
    | .ok ids =>
        match collectEmails getCall ids with
        | .error _ => []
        | .ok emails => emails

/-- `GmailService.send_email`: lazy authentication, then the
`messages.send` call; every exception is caught and turned into `False`. -/
def gmail_send_email (hasService authOk : Bool)
    (sendCall : Except Unit String) : Bool :=
  if !hasService && !authOk then false
  else
    match sendCall with
    | .error _ => false
    | .ok _ => true

/-- The event body built by `CalendarService.create_event` and posted to the
`events.insert` API call. -/
structure EventBody where
  summary : String
  location : String
  description : String
  startDateTime : String
  startTimeZone : String
  endDateTime : String
  endTimeZone : String
deriving DecidableEq, Repr

/-- The body `CalendarService.create_event` builds from its arguments
(reminders omitted; both time zones are the constant `"UTC"`). -/
def mkEventBody (summary startIso endIso description location : String) :
    EventBody :=
  { summary := summary
    location := location
    description := description
    startDateTime := startIso
    startTimeZone := "UTC"
    endDateTime := endIso
    endTimeZone := "UTC" }

/-- `CalendarService.create_event`: lazy authentication, then the
`events.insert` API call on the built body; every exception is caught and
turned into `None`; on success the created event record is returned. -/
def cal_create_event (hasService authOk : Bool)
    (insertCall : EventBody → Except Unit (List (String × String)))
    (summary startIso endIso description location : String) :
    Option (List (String × String)) :=
  if !hasService && !authOk then none
  else
    match insertCall (mkEventBody summary startIso endIso description location) with
    | .error _ => none
    | .ok ev => some ev

/-- The request model of `POST /api/calendar/create`. -/
structure CalendarEventRequest where
  summary : String
  start_time : String
  end_time : String
  description : Option String
  location : Option String
deriving DecidableEq, Repr

/-- The outcome of the `POST /api/calendar/create` handler: a success body,
or an `HTTPException` with a status code and a detail message. -/
inductive HandlerResult where
  | ok (message : String) (event : List (String × String))
  | error (status : Nat) (detail : String)
deriving DecidableEq, Repr

/-- The `POST /api/calendar/create` handler.  `fromiso` models
`datetime.datetime.fromisoformat`; `excStr` models Python `str()` applied to
the `HTTPException(500, detail)` raised for a failed creation and re-caught
by the handler's generic `except Exception` clause. -/
def create_calendar_event_route (fromiso : String → Except String String)
    (excStr : String → String) (hasService authOk : Bool)
    (insertCall : EventBody → Except Unit (List (String × String)))
    (req : CalendarEventRequest) : HandlerResult :=
  match fromiso req.start_time with
  | .error e => .error 400 ("Invalid date format: " ++ e)
  | .ok s =>
      match fromiso req.end_time with
      | .error e => .error 400 ("Invalid date format: " ++ e)
      | .ok en =>
          match cal_create_event hasService authOk insertCall req.summary s en
              (req.description.getD "") (req.location.getD "") with
          | some ev => .ok ("Event '" ++ req.summary ++ "' created successfully") ev
          | none => .error 500 (excStr "Failed to create event")

/-- The three characters appended by `truncate_text`. -/
def ellipsisChars : List Char := ['.', '.', '.']

/-- The Python slice `s[:k]` on a string embedded as a character list: a
nonnegative `k` keeps the first `k` characters, a negative `k` drops the
last `-k` characters (clamped at the empty string). -/
def pySliceTo (s : List Char) (k : Int) : List Char :=
  if 0 ≤ k then s.take k.toNat else s.take (s.length - (-k).toNat)

/-- `truncate_text(text, max_length)`: the text unchanged when it fits,
otherwise `text[:max_length-3] + "..."`. -/
def truncate_text (text : List Char) (max_length : Int) : List Char :=
  if (text.length : Int) ≤ max_length then text
  else pySliceTo text (max_length - 3) ++ ellipsisChars

/-- Writing a file and reading it back under the same user id returns the
written content. -/
theorem fslookup_fswrite_self (st : Store) (uid : String) (fd : FileData) :
    fslookup (fswrite st uid fd) uid = some fd := by
  induction st with
  | nil => simp [fswrite, fslookup]
  | cons hd tl ih =>
      by_cases hu : hd.1 = uid
      · simp [fswrite, fslookup, hu]
      · simpa [fswrite, fslookup, hu] using ih

/-- Assignment makes the assigned key read back the assigned value. -/
theorem dget_dinsert_self (d : Dict) (k : String) (v : PValue) :
    dget (dinsert d k v) k = some v := by
  induction d with
  | nil => simp [dinsert, dget]
  | cons hd tl ih =>
      by_cases hk : hd.1 = k
      · simp [dinsert, dget, hk]
      · simpa [dinsert, dget, hk] using ih

theorem dkeys_nil : dkeys ([] : Dict) = [] := rfl

theorem dkeys_cons (kv : String × PValue) (tl : Dict) :
    dkeys (kv :: tl) = kv.1 :: dkeys tl := rfl

theorem dget_cons (kv : String × PValue) (tl : Dict) (key : String) :
    dget (kv :: tl) key = if kv.1 = key then some kv.2 else dget tl key := rfl

theorem dinsert_cons (kv : String × PValue) (tl : Dict) (key : String) (v : PValue) :
    dinsert (kv :: tl) key v =
      if kv.1 = key then (kv.1, v) :: tl else kv :: dinsert tl key v := rfl

theorem dupdate_cons (d : Dict) (kv : String × PValue) (tl : Dict) :
    dupdate d (kv :: tl) = dupdate (dinsert d kv.1 kv.2) tl := rfl

/-- Assignment leaves every other key unchanged. -/
theorem dget_dinsert_ne (d : Dict) (k key : String) (v : PValue)
    (h : k ≠ key) : dget (dinsert d k v) key = dget d key := by
  induction d with
  | nil => simp [dinsert, dget, h]
  | cons hd tl ih =>
      by_cases hk : hd.1 = k
      · have hne : hd.1 ≠ key := fun he => h (hk.symm.trans he)
        rw [dinsert_cons, if_pos hk, dget_cons, if_neg hne, dget_cons, if_neg hne]
      · rw [dinsert_cons, if_neg hk, dget_cons, dget_cons, ih]

/-- The key set after an assignment is the old key set plus the assigned
key. -/
theorem mem_dkeys_dinsert (d : Dict) (k key : String) (v : PValue) :
    key ∈ dkeys (dinsert d k v) ↔ key ∈ dkeys d ∨ key = k := by
  induction d with
  | nil => simp [dinsert, dkeys]
  | cons hd tl ih =>
      by_cases hk : hd.1 = k
      · rw [dinsert_cons, if_pos hk, dkeys_cons, dkeys_cons]
        simp only [List.mem_cons, hk]
        tauto
      · rw [dinsert_cons, if_neg hk, dkeys_cons, dkeys_cons]
        simp only [List.mem_cons, ih]
        tauto

/-- A `dict.update` does not touch keys outside the update. -/
theorem dget_dupdate_not_mem (d u : Dict) (k : String)
    (h : k ∉ dkeys u) : dget (dupdate d u) k = dget d k := by
  induction u generalizing d with
  | nil => rfl
  | cons hd tl ih =>
      rw [dkeys_cons] at h
      have hk : k ∉ dkeys tl := fun hmem => h (List.mem_cons_of_mem _ hmem)
      have hne : hd.1 ≠ k := fun he => h (he ▸ List.mem_cons_self _ _)
      rw [dupdate_cons, ih (dinsert d hd.1 hd.2) hk,
        dget_dinsert_ne d hd.1 k hd.2 hne]

/-- A `dict.update` with duplicate-free keys makes every updated key read
back its value from the update. -/
theorem dget_dupdate_mem (d u : Dict) (k : String)
    (hnd : (dkeys u).Nodup) (h : k ∈ dkeys u) :
    dget (dupdate d u) k = dget u k := by
  induction u generalizing d with
  | nil => simp [dkeys] at h
  | cons hd tl ih =>
      rw [dkeys_cons] at hnd
      by_cases hk : hd.1 = k
      · have htl : k ∉ dkeys tl := by
          have := (List.nodup_cons.mp hnd).1
          rw [hk] at this
          exact this
        rw [dupdate_cons, dget_dupdate_not_mem (dinsert d hd.1 hd.2) tl k htl,
          dget_cons, if_pos hk]
        rw [hk]
        exact dget_dinsert_self d k hd.2
      · have htl : k ∈ dkeys tl := by
          rw [dkeys_cons, List.mem_cons] at h
          rcases h with he | hm
          · exact absurd he.symm hk
          · exact hm
        rw [dupdate_cons, ih (dinsert d hd.1 hd.2) (List.nodup_cons.mp hnd).2 htl,
          dget_cons, if_neg hk]

/-- The key set after a `dict.update` is the union of both key sets. -/
theorem mem_dkeys_dupdate (d u : Dict) (k : String) :
    k ∈ dkeys (dupdate d u) ↔ k ∈ dkeys d ∨ k ∈ dkeys u := by
  induction u generalizing d with
  | nil => simp [dupdate, dkeys]
  | cons hd tl ih =>
      rw [dupdate_cons, ih (dinsert d hd.1 hd.2), mem_dkeys_dinsert, dkeys_cons]
      simp only [List.mem_cons]
      tauto

/-- C1 (counterexample): on a fresh store the record returned by
`load_user_preferences` does NOT carry the key `updated_at`, so its key set
is not the full documented eight-key set. -/
theorem c1_default_lacks_updated_at :
    "updated_at" ∉ dkeys (load_user_preferences [] "alice" "2024-01-01 00:00:00").1 ∧
    dkeys (load_user_preferences [] "alice" "2024-01-01 00:00:00").1 ≠ documentedPrefKeys := by
  constructor
  · decide
  · decide

/-- C1 (amended): for every user id with no preference file,
`load_user_preferences` creates the preference file and returns a record
whose key set is exactly the seven keys `user_id`, `created_at`, `theme`,
`notifications_enabled`, `email_signature`, `preferred_greeting`,
`creativity_level` — `updated_at` is absent until the first update — with
the documented default values (`theme = "light"`,
`notifications_enabled = True`, `email_signature = ""`,
`preferred_greeting = "Hello"`, `creativity_level = "balanced"`,
`created_at` the current time, `user_id` the requested id). -/
theorem c1_load_creates_defaults (st : Store) (uid now : String)
    (h : fslookup st uid = none) :
    (load_user_preferences st uid now).1 = default_prefs uid now ∧
    dkeys (load_user_preferences st uid now).1 =
      ["user_id", "created_at", "theme", "notifications_enabled",
       "email_signature", "preferred_greeting", "creativity_level"] ∧
    dget (load_user_preferences st uid now).1 "user_id" = some (.s uid) ∧
    dget (load_user_preferences st uid now).1 "created_at" = some (.s now) ∧
    dget (load_user_preferences st uid now).1 "theme" = some (.s "light") ∧
    dget (load_user_preferences st uid now).1 "notifications_enabled" = some (.b true) ∧
    dget (load_user_preferences st uid now).1 "email_signature" = some (.s "") ∧
    dget (load_user_preferences st uid now).1 "preferred_greeting" = some (.s "Hello") ∧
    dget (load_user_preferences st uid now).1 "creativity_level" = some (.s "balanced") ∧
    fslookup (load_user_preferences st uid now).2 uid = some (some (default_prefs uid now)) := by
  have hload : load_user_preferences st uid now =
      (default_prefs uid now, fswrite st uid (some (default_prefs uid now))) := by
    unfold load_user_preferences
    rw [h]
  rw [hload]
  refine ⟨rfl, rfl, rfl, ?_, rfl, rfl, rfl, rfl, rfl, ?_⟩
  · simp [dget, default_prefs]
  · exact fslookup_fswrite_self st uid (some (default_prefs uid now))

/-- C9: `load_user_preferences` is total — in this embedding it is a Lean
function, so it returns a record on every input — and when the preference
file exists but holds unparseable JSON it returns the empty dictionary and
leaves the store unchanged, so callers cannot distinguish a corrupted file
from an empty preference set. -/
theorem c9_corrupted_file_yields_empty (st : Store) (uid now : String)
    (h : fslookup st uid = some none) :
    load_user_preferences st uid now = ([], st) := by
  unfold load_user_preferences
  rw [h]
  rfl

/-- C9 witness: a store whose only file for user `bob` is unparseable. -/
theorem c9_corrupted_file_yields_empty_witness :
    load_user_preferences [("bob", (none : FileData))] "bob" "t0" =
      ([], [("bob", (none : FileData))]) :=
  c9_corrupted_file_yields_empty [("bob", none)] "bob" "t0" rfl

/-- C3 (counterexample): after `update_user_preferences(u, {"theme": "dark"})`
followed by `load_user_preferences(u)`, the previously set key `updated_at`
is NOT kept at its previous value — the update overwrites it with the update
timestamp — refuting the claim that every previously-set key is still present
with its previous value. -/
theorem c3_updated_at_not_preserved :
    dget c3OldPrefs "updated_at" = some (PValue.s "2024-01-01 00:00:00") ∧
    dget (load_user_preferences
        (update_user_preferences c3Store "u" [("theme", PValue.s "dark")]
          "2024-06-01 00:00:00" "2024-06-01 00:00:01")
        "u" "2024-06-01 00:00:02").1 "updated_at" ≠
      some (PValue.s "2024-01-01 00:00:00") := by
  constructor
  · decide
  · decide

/-- C3 (amended): for every user id with a stored (parseable) preference
record, `update_user_preferences(user_id, {"theme": "dark"})` followed by
`load_user_preferences(user_id)` returns a record in which `theme == "dark"`,
every key that was set before the update is still present, and every such key
other than `theme` and `updated_at` keeps its previous value; `updated_at` is
overwritten with the update timestamp (shallow merge, not replacement of the
record). -/
theorem c3_theme_update_merge (st : Store) (uid : String) (d : Dict)
    (now1 now2 now3 : String)
    (h : fslookup st uid = some (some d)) :
    dget (load_user_preferences
        (update_user_preferences st uid [("theme", PValue.s "dark")] now1 now2)
        uid now3).1 "theme" = some (PValue.s "dark") ∧
    (∀ k, k ∈ dkeys d →
      k ∈ dkeys (load_user_preferences
        (update_user_preferences st uid [("theme", PValue.s "dark")] now1 now2)
        uid now3).1) ∧
    (∀ k, k ∈ dkeys d → k ≠ "theme" → k ≠ "updated_at" →
      dget (load_user_preferences
        (update_user_preferences st uid [("theme", PValue.s "dark")] now1 now2)
        uid now3).1 k = dget d k) ∧
    dget (load_user_preferences
        (update_user_preferences st uid [("theme", PValue.s "dark")] now1 now2)
        uid now3).1 "updated_at" = some (PValue.s now2) := by
  have hupd : update_user_preferences st uid [("theme", PValue.s "dark")] now1 now2 =
      fswrite st uid
        (some (dinsert (dinsert d "theme" (PValue.s "dark")) "updated_at" (PValue.s now2))) := by
    unfold update_user_preferences load_user_preferences
    rw [h]
    rfl
  have hp : (load_user_preferences
      (update_user_preferences st uid [("theme", PValue.s "dark")] now1 now2)
      uid now3).1 =
      dinsert (dinsert d "theme" (PValue.s "dark")) "updated_at" (PValue.s now2) := by
    rw [hupd]
    unfold load_user_preferences
    rw [fslookup_fswrite_self]
    rfl
  rw [hp]
  refine ⟨?_, ?_, ?_, ?_⟩
  · rw [dget_dinsert_ne _ "updated_at" "theme" _ (by decide)]
    exact dget_dinsert_self d "theme" (PValue.s "dark")
  · intro k hk
    rw [mem_dkeys_dinsert, mem_dkeys_dinsert]
    exact Or.inl (Or.inl hk)
  · intro k hk hth hua
    rw [dget_dinsert_ne _ "updated_at" k _ (Ne.symm hua),
      dget_dinsert_ne _ "theme" k _ (Ne.symm hth)]
  · exact dget_dinsert_self _ "updated_at" (PValue.s now2)

/-- C3 witness: the amended theorem evaluated on a concrete store. -/
theorem c3_theme_update_merge_witness :
    dget (load_user_preferences
        (update_user_preferences c3Store "u" [("theme", PValue.s "dark")] "n1" "n2")
        "u" "n3").1 "theme" = some (PValue.s "dark") ∧
    (∀ k, k ∈ dkeys c3OldPrefs →
      k ∈ dkeys (load_user_preferences
        (update_user_preferences c3Store "u" [("theme", PValue.s "dark")] "n1" "n2")
        "u" "n3").1) ∧
    (∀ k, k ∈ dkeys c3OldPrefs → k ≠ "theme" → k ≠ "updated_at" →
      dget (load_user_preferences
        (update_user_preferences c3Store "u" [("theme", PValue.s "dark")] "n1" "n2")
        "u" "n3").1 k = dget c3OldPrefs k) ∧
    dget (load_user_preferences
        (update_user_preferences c3Store "u" [("theme", PValue.s "dark")] "n1" "n2")
        "u" "n3").1 "updated_at" = some (PValue.s "n2") :=
  c3_theme_update_merge c3Store "u" c3OldPrefs "n1" "n2" "n3" rfl

/-- C8: for every user id with a stored (parseable) record and every update
dictionary not containing the key `updated_at`, a successful
`update_user_preferences(user_id, updates)` stores a record in which every
key of `updates` maps to its value in `updates`, `updated_at` is set to the
current timestamp, every other key of the previously stored record keeps its
previous value, and no key outside the previous record, the updates and
`updated_at` appears. -/
theorem c8_update_frame (st : Store) (uid : String) (d updates : Dict)
    (now1 now2 : String)
    (hfile : fslookup st uid = some (some d))
    (hnod : (dkeys updates).Nodup)
    (hupd : "updated_at" ∉ dkeys updates) :
    ∃ p, fslookup (update_user_preferences st uid updates now1 now2) uid = some (some p) ∧
      (∀ k, k ∈ dkeys updates → dget p k = dget updates k) ∧
      dget p "updated_at" = some (PValue.s now2) ∧
      (∀ k, k ∉ dkeys updates → k ≠ "updated_at" → dget p k = dget d k) ∧
      (∀ k, k ∈ dkeys p → k ∈ dkeys d ∨ k ∈ dkeys updates ∨ k = "updated_at") := by
  refine ⟨dinsert (dupdate d updates) "updated_at" (PValue.s now2), ?_, ?_, ?_, ?_, ?_⟩
  · have hu : update_user_preferences st uid updates now1 now2 =
        fswrite st uid (some (dinsert (dupdate d updates) "updated_at" (PValue.s now2))) := by
      unfold update_user_preferences load_user_preferences
      rw [hfile]
      rfl
    rw [hu]
    exact fslookup_fswrite_self st uid _
  · intro k hk
    have hkne : k ≠ "updated_at" := fun he => hupd (he ▸ hk)
    rw [dget_dinsert_ne _ "updated_at" k _ (Ne.symm hkne)]
    exact dget_dupdate_mem d updates k hnod hk
  · exact dget_dinsert_self _ "updated_at" (PValue.s now2)
  · intro k hk hkne
    rw [dget_dinsert_ne _ "updated_at" k _ (Ne.symm hkne)]
    exact dget_dupdate_not_mem d updates k hk
  · intro k hk
    rw [mem_dkeys_dinsert] at hk
    rcases hk with hk | hk
    · rcases (mem_dkeys_dupdate d updates k).mp hk with hk | hk
      · exact Or.inl hk
      · exact Or.inr (Or.inl hk)
    · exact Or.inr (Or.inr hk)

/-- C8 witness: the frame theorem evaluated on a concrete store and update. -/
theorem c8_update_frame_witness :
    ∃ p, fslookup (update_user_preferences [("u", some c8OldPrefs)] "u" c8Updates
        "n1" "n2") "u" = some (some p) ∧
      (∀ k, k ∈ dkeys c8Updates → dget p k = dget c8Updates k) ∧
      dget p "updated_at" = some (PValue.s "n2") ∧
      (∀ k, k ∉ dkeys c8Updates → k ≠ "updated_at" → dget p k = dget c8OldPrefs k) ∧
      (∀ k, k ∈ dkeys p → k ∈ dkeys c8OldPrefs ∨ k ∈ dkeys c8Updates ∨ k = "updated_at") :=
  c8_update_frame [("u", some c8OldPrefs)] "u" c8OldPrefs c8Updates "n1" "n2"
    rfl (by decide) (by decide)

/-- C1 witness: the amended theorem evaluated on a fresh store. -/
theorem c1_load_creates_defaults_witness :
    (load_user_preferences [] "alice" "t0").1 = default_prefs "alice" "t0" ∧
    dkeys (load_user_preferences [] "alice" "t0").1 =
      ["user_id", "created_at", "theme", "notifications_enabled",
       "email_signature", "preferred_greeting", "creativity_level"] ∧
    dget (load_user_preferences [] "alice" "t0").1 "user_id" = some (.s "alice") ∧
    dget (load_user_preferences [] "alice" "t0").1 "created_at" = some (.s "t0") ∧
    dget (load_user_preferences [] "alice" "t0").1 "theme" = some (.s "light") ∧
    dget (load_user_preferences [] "alice" "t0").1 "notifications_enabled" = some (.b true) ∧
    dget (load_user_preferences [] "alice" "t0").1 "email_signature" = some (.s "") ∧
    dget (load_user_preferences [] "alice" "t0").1 "preferred_greeting" = some (.s "Hello") ∧
    dget (load_user_preferences [] "alice" "t0").1 "creativity_level" = some (.s "balanced") ∧
    fslookup (load_user_preferences [] "alice" "t0").2 "alice" =
      some (some (default_prefs "alice" "t0")) :=
  c1_load_creates_defaults [] "alice" "t0" rfl

/-- String append is associative (via the underlying character data). -/
theorem strAppendAssoc (a b c : String) : (a ++ b) ++ c = a ++ (b ++ c) := by
  apply String.ext
  simp [String.data_append, List.append_assoc]

/-- The trimmed memory never exceeds 20 entries. -/
theorem trimMemory_length_le (mem : List Msg) : (trimMemory mem).length ≤ 20 := by
  unfold trimMemory
  by_cases h : 20 < mem.length
  · rw [if_pos h, List.length_append, List.length_take, List.length_drop]
    omega
  · rw [if_neg h]
    omega

/-- Trimming keeps the first entry in place. -/
theorem trimMemory_cons (m0 : Msg) (rest : List Msg) :
    ∃ t, trimMemory (m0 :: rest) = m0 :: t := by
  unfold trimMemory
  by_cases h : 20 < (m0 :: rest).length
  · rw [if_pos h]
    exact ⟨(m0 :: rest).drop ((m0 :: rest).length - 19), by simp⟩
  · rw [if_neg h]
    exact ⟨rest, rfl⟩

/-- `process_message` keeps a nonempty memory nonempty with the same first
entry. -/
theorem process_message_memory_cons (st : Store) (m0 : Msg) (mrest : List Msg)
    (message uid now : String) (oc : RunnerOutcome) :
    ∃ t, (process_message st (m0 :: mrest) message uid now oc).2.1 = m0 :: t := by
  cases oc with
  | exc => exact ⟨mrest ++ [Msg.mk "user" message], rfl⟩
  | ok out =>
      obtain ⟨t, ht⟩ :=
        trimMemory_cons m0 ((mrest ++ [Msg.mk "user" message]) ++ [Msg.mk "assistant" out])
      exact ⟨t, ht⟩

/-- Unfolding equation for `runCalls` on a nonempty call list. -/
theorem runCalls_cons (st : Store) (mem : List Msg) (c : CallSpec)
    (rest : List CallSpec) :
    runCalls st mem (c :: rest) =
      runCalls (process_message st mem c.message c.user_id c.now c.outcome).1
        (process_message st mem c.message c.user_id c.now c.outcome).2.1 rest := rfl

/-- Any call sequence preserves the first memory entry. -/
theorem runCalls_head (st : Store) (m0 : Msg) (mrest : List Msg)
    (calls : List CallSpec) :
    (runCalls st (m0 :: mrest) calls).2.head? = some m0 := by
  induction calls generalizing st mrest with
  | nil => rfl
  | cons c rest ih =>
      obtain ⟨t, ht⟩ :=
        process_message_memory_cons st m0 mrest c.message c.user_id c.now c.outcome
      rw [runCalls_cons, ht]
      exact ih _ _

/-- On the first exchange the memory starts with the system preference
message built from the preferences loaded during that call. -/
theorem process_message_first_system (st : Store) (message uid now : String)
    (oc : RunnerOutcome) :
    ∃ t, (process_message st [] message uid now oc).2.1 =
      Msg.mk "system"
        ("User preferences: " ++ dictPyRepr (load_user_preferences st uid now).1) :: t := by
  cases oc with
  | exc => exact ⟨[Msg.mk "user" message], rfl⟩
  | ok out =>
      obtain ⟨t, ht⟩ :=
        trimMemory_cons
          (Msg.mk "system"
            ("User preferences: " ++ dictPyRepr (load_user_preferences st uid now).1))
          [Msg.mk "user" message, Msg.mk "assistant" out]
      exact ⟨t, ht⟩

set_option maxRecDepth 8000 in
/-- C2 (counterexample): a sequence of 21 calls — 20 exchanges in which the
runner succeeds followed by one call in which it raises — leaves 21 entries
in the conversation memory: the exception path appends the user message
without applying the 20-entry cap. -/
theorem c2_cap_exceeded_on_runner_error :
    c2Calls.length = 21 ∧ 20 < (runCalls [] [] c2Calls).2.length := by
  constructor
  · rfl
  · decide

/-- C2 (amended): after every call in which the hosted runner succeeds the
conversation memory holds at most 20 entries (the cap is applied only on the
success path, so a call in which the runner raises can push the memory past
20), and for every nonempty call sequence on a fresh agent instance entry 0
of the memory is always the original system message recording the user
preferences loaded at the first exchange. -/
theorem c2_memory_cap_and_first_entry (st0 : Store) (c : CallSpec)
    (rest : List CallSpec) :
    (runCalls st0 [] (c :: rest)).2.head? =
      some (Msg.mk "system"
        ("User preferences: " ++ dictPyRepr (load_user_preferences st0 c.user_id c.now).1)) ∧
    (∀ (st : Store) (mem : List Msg) (message uid now out : String),
      (process_message st mem message uid now (.ok out)).2.1.length ≤ 20) := by
  constructor
  · obtain ⟨t, ht⟩ := process_message_first_system st0 c.message c.user_id c.now c.outcome
    rw [runCalls_cons, ht]
    exact runCalls_head _ _ _ rest
  · intro st mem message uid now out
    exact trimMemory_length_le _

/-- C6: `process_message` always returns a string: on a runner exception the
fixed apology of the agent, and on success the runner's final output — for
the assistant agent and for the email agent. -/
theorem c6_runner_exception_to_apology (st : Store) (mem : List Msg)
    (message uid now out : String) :
    (process_message st mem message uid now (.ok out)).2.2 = out ∧
    (process_message st mem message uid now .exc).2.2 = assistantApology ∧
    email_process_message (.ok out) = out ∧
    email_process_message .exc = emailApology :=
  ⟨rfl, rfl, rfl, rfl⟩

/-- C4 (counterexample): the `read_email` tool performs TWO external client
calls — `get_email_thread` followed by `mark_as_read` — when the email is
found in its thread, refuting "exactly one call to an external client
method". -/
theorem c4_read_email_two_calls :
    (read_email "id1" [ThreadMsg.mk "id1" "alice@example.com" "Hi" "Mon" "hello"]).2 =
      [ClientCall.getThread "id1", ClientCall.markRead "id1"] ∧
    (read_email "id1" [ThreadMsg.mk "id1" "alice@example.com" "Hi" "Mon" "hello"]).2.length ≠ 1 := by
  constructor
  · rfl
  · decide

/-- C4 (amended): every modeled tool function is total, returns a formatted
string and converts every client failure into a user-facing string; but the
client-call count is not uniformly one: `send_email` performs exactly one
client call, `create_calendar_event` performs one when both dates parse and
none when a date fails to parse, and `read_email` performs a
`get_email_thread` call plus — when the email is found — a `mark_as_read`
call (one or two calls, the first always being `get_email_thread`). -/
theorem c4_tool_call_counts (email_id : String) (thread : List ThreadMsg)
    (toAddr subject body : String) (fromiso : String → Except String String)
    (createOk : Bool)
    (summary bad_start good_start good_end description location e s en : String)
    (hbad : fromiso bad_start = .error e)
    (hgs : fromiso good_start = .ok s)
    (hge : fromiso good_end = .ok en) :
    (1 ≤ (read_email email_id thread).2.length ∧
      (read_email email_id thread).2.length ≤ 2) ∧
    (read_email email_id thread).2.head? = some (.getThread email_id) ∧
    (send_email toAddr subject body true).2 = [.sendMail toAddr subject body] ∧
    (send_email toAddr subject body false).2 = [.sendMail toAddr subject body] ∧
    (send_email toAddr subject body true).1 =
      "Email sent successfully to " ++ toAddr ++ "." ∧
    (send_email toAddr subject body false).1 =
      "Failed to send email. Please try again." ∧
    (create_calendar_event_tool fromiso createOk summary bad_start good_end
      description location).2 = [] ∧
    (create_calendar_event_tool fromiso createOk summary bad_start good_end
      description location).1 = invalidDateToolMsg e ∧
    (create_calendar_event_tool fromiso createOk summary good_start good_end
      description location).2 = [.insertEvent summary s en description location] ∧
    (create_calendar_event_tool fromiso false summary good_start good_end
      description location).1 = "Failed to create event. Please try again." := by
  refine ⟨?_, ?_, rfl, rfl, rfl, rfl, ?_, ?_, ?_, ?_⟩
  · unfold read_email
    by_cases ht : thread.isEmpty
    · rw [if_pos ht]
      exact ⟨by simp, by simp⟩
    · rw [if_neg ht]
      cases hf : thread.find? (fun m => m.id == email_id) with
      | none => exact ⟨by simp, by simp⟩
      | some email => exact ⟨by simp, by simp⟩
  · unfold read_email
    by_cases ht : thread.isEmpty
    · rw [if_pos ht]
      rfl
    · rw [if_neg ht]
      cases hf : thread.find? (fun m => m.id == email_id) with
      | none => rfl
      | some email => rfl
  · unfold create_calendar_event_tool
    rw [hbad]
  · unfold create_calendar_event_tool
    rw [hbad]
  · unfold create_calendar_event_tool
    rw [hgs, hge]
    cases createOk <;> rfl
  · unfold create_calendar_event_tool
    rw [hgs, hge]
    rfl

/-- C4 witness: the amended theorem evaluated on concrete inputs, with a
concrete `fromisoformat` model. -/
theorem c4_tool_call_counts_witness :
    wfromiso "B" = .error ("Invalid isoformat string: " ++ "B") ∧
    wfromiso "G" = .ok "G" ∧
    ((1 ≤ (read_email "id1" []).2.length ∧ (read_email "id1" []).2.length ≤ 2) ∧
    (read_email "id1" []).2.head? = some (.getThread "id1") ∧
    (send_email "a" "s" "b" true).2 = [.sendMail "a" "s" "b"] ∧
    (send_email "a" "s" "b" false).2 = [.sendMail "a" "s" "b"] ∧
    (send_email "a" "s" "b" true).1 = "Email sent successfully to " ++ "a" ++ "." ∧
    (send_email "a" "s" "b" false).1 = "Failed to send email. Please try again." ∧
    (create_calendar_event_tool wfromiso true "S" "B" "G" "" "").2 = [] ∧
    (create_calendar_event_tool wfromiso true "S" "B" "G" "" "").1 =
      invalidDateToolMsg ("Invalid isoformat string: " ++ "B") ∧
    (create_calendar_event_tool wfromiso true "S" "G" "G" "" "").2 =
      [.insertEvent "S" "G" "G" "" ""] ∧
    (create_calendar_event_tool wfromiso false "S" "G" "G" "" "").1 =
      "Failed to create event. Please try again.") :=
  ⟨rfl, rfl,
    c4_tool_call_counts "id1" [] "a" "s" "b" wfromiso true "S" "B" "G" "G" "" ""
      ("Invalid isoformat string: " ++ "B") "G" "G" rfl rfl rfl⟩

/-- A failing `messages.get` call inside the loop of `get_unread_emails`
aborts the whole loop with the exception. -/
theorem collectEmails_error (getCall : String → Except Unit RawMessage)
    (ids : List String) (i : String) (hi : i ∈ ids)
    (hget : getCall i = .error ()) :
    collectEmails getCall ids = .error () := by
  induction ids with
  | nil => cases hi
  | cons hd tl ih =>
      unfold collectEmails
      cases hhd : getCall hd with
      | error e => cases e; rfl
      | ok m =>
          rcases List.mem_cons.mp hi with he | hm
          · subst he
            rw [hget] at hhd
            cases hhd
          · rw [ih hm]

/-- C5: every modeled client method returns its documented empty sentinel —
`[]` for list-returning methods, `False` for boolean methods, `None` for
record-returning methods — both when lazy authentication fails and when the
underlying API call raises, and never propagates the exception. -/
theorem c5_client_error_sentinels
    (listCall : Except Unit (List String))
    (getCall : String → Except Unit RawMessage)
    (sendCall : Except Unit String)
    (insertCall : EventBody → Except Unit (List (String × String)))
    (summary startIso endIso description location : String)
    (ids : List String) (i : String)
    (hlist : listCall = .ok ids) (hi : i ∈ ids)
    (hget : getCall i = .error ())
    (hins : insertCall (mkEventBody summary startIso endIso description location) =
      .error ()) :
    get_unread_emails false false listCall getCall = [] ∧
    gmail_send_email false false sendCall = false ∧
    cal_create_event false false insertCall summary startIso endIso description
      location = none ∧
    get_unread_emails true true (Except.error ()) getCall = [] ∧
    get_unread_emails true true listCall getCall = [] ∧
    gmail_send_email true true (Except.error ()) = false ∧
    cal_create_event true true insertCall summary startIso endIso description
      location = none := by
  refine ⟨rfl, rfl, rfl, rfl, ?_, rfl, ?_⟩
  · calc get_unread_emails true true listCall getCall
        = get_unread_emails true true (Except.ok ids) getCall := by rw [hlist]
      _ = (match collectEmails getCall ids with
            | .error _ => []
            | .ok emails => emails) := rfl
      _ = [] := by rw [collectEmails_error getCall ids i hi hget]
  · calc cal_create_event true true insertCall summary startIso endIso description
          location
        = (match insertCall (mkEventBody summary startIso endIso description location)
            with
            | .error _ => none
            | .ok ev => some ev) := rfl
      _ = none := by rw [hins]

/-- C5 witness: the sentinel theorem evaluated on concrete failing calls. -/
theorem c5_client_error_sentinels_witness :
    ((Except.ok ["a"] : Except Unit (List String)) = .ok ["a"]) ∧
    ("a" ∈ ["a"]) ∧
    ((fun _ : String => (Except.error () : Except Unit RawMessage)) "a" = .error ()) ∧
    ((fun _ : EventBody => (Except.error () : Except Unit (List (String × String))))
      (mkEventBody "S" "st" "en" "" "") = .error ()) ∧
    (get_unread_emails false false (Except.ok ["a"])
      (fun _ => Except.error ()) = [] ∧
    gmail_send_email false false (Except.error ()) = false ∧
    cal_create_event false false (fun _ => Except.error ()) "S" "st" "en" "" "" = none ∧
    get_unread_emails true true (Except.error ()) (fun _ => Except.error ()) = [] ∧
    get_unread_emails true true (Except.ok ["a"]) (fun _ => Except.error ()) = [] ∧
    gmail_send_email true true (Except.error ()) = false ∧
    cal_create_event true true (fun _ => Except.error ()) "S" "st" "en" "" "" = none) :=
  ⟨rfl, by decide, rfl, rfl,
    c5_client_error_sentinels (Except.ok ["a"]) (fun _ => Except.error ())
      (Except.error ()) (fun _ => Except.error ()) "S" "st" "en" "" "" ["a"] "a"
      rfl (by decide) rfl rfl⟩

/-- C7: `POST /api/calendar/create` returns HTTP 400 with a detail starting
with "Invalid date format" whenever `start_time` (or `end_time`) fails to
parse as ISO-8601, and every other failure of the handler — a creation that
returns no event — yields HTTP 500 with the (stringified) exception message
as detail. -/
theorem c7_invalid_date_400 (fromiso : String → Except String String)
    (excStr : String → String) (hasService authOk : Bool)
    (insertCall : EventBody → Except Unit (List (String × String)))
    (req req2 req3 : CalendarEventRequest) (e e2 s s3 en : String)
    (hbad : fromiso req.start_time = .error e)
    (hs2 : fromiso req2.start_time = .ok s)
    (hbad2 : fromiso req2.end_time = .error e2)
    (hs3 : fromiso req3.start_time = .ok s3)
    (he3 : fromiso req3.end_time = .ok en)
    (hfail : cal_create_event hasService authOk insertCall req3.summary s3 en
      (req3.description.getD "") (req3.location.getD "") = none) :
    create_calendar_event_route fromiso excStr hasService authOk insertCall req =
      .error 400 ("Invalid date format: " ++ e) ∧
    "Invalid date format: " ++ e = "Invalid date format" ++ (": " ++ e) ∧
    create_calendar_event_route fromiso excStr hasService authOk insertCall req2 =
      .error 400 ("Invalid date format: " ++ e2) ∧
    create_calendar_event_route fromiso excStr hasService authOk insertCall req3 =
      .error 500 (excStr "Failed to create event") := by
  refine ⟨?_, ?_, ?_, ?_⟩
  · unfold create_calendar_event_route
    rw [hbad]
  · rw [← strAppendAssoc]
    have h1 : "Invalid date format: " = "Invalid date format" ++ ": " := by decide
    rw [h1]
  · unfold create_calendar_event_route
    rw [hs2, hbad2]
  · calc create_calendar_event_route fromiso excStr hasService authOk insertCall req3
        = (match cal_create_event hasService authOk insertCall req3.summary s3 en
              (req3.description.getD "") (req3.location.getD "") with
            | some ev =>
                HandlerResult.ok ("Event '" ++ req3.summary ++ "' created successfully") ev
            | none => HandlerResult.error 500 (excStr "Failed to create event")) := by
          unfold create_calendar_event_route
          rw [hs3, he3]
      _ = HandlerResult.error 500 (excStr "Failed to create event") := by rw [hfail]

/-- C7 witness: the handler theorem evaluated on three concrete requests
(bad start time, bad end time, failing creation) with a concrete
`fromisoformat` model. -/
theorem c7_invalid_date_400_witness :
    (wfromiso "B" = .error ("Invalid isoformat string: " ++ "B")) ∧
    (wfromiso "G" = .ok "G") ∧
    (cal_create_event true true (fun _ => Except.error ()) "S" "G" "G" "" "" = none) ∧
    (create_calendar_event_route wfromiso (fun d => "500: " ++ d) true true
      (fun _ => Except.error ()) (CalendarEventRequest.mk "S" "B" "G" none none) =
      .error 400 ("Invalid date format: " ++ ("Invalid isoformat string: " ++ "B")) ∧
    "Invalid date format: " ++ ("Invalid isoformat string: " ++ "B") =
      "Invalid date format" ++ (": " ++ ("Invalid isoformat string: " ++ "B")) ∧
    create_calendar_event_route wfromiso (fun d => "500: " ++ d) true true
      (fun _ => Except.error ()) (CalendarEventRequest.mk "S" "G" "B" none none) =
      .error 400 ("Invalid date format: " ++ ("Invalid isoformat string: " ++ "B")) ∧
    create_calendar_event_route wfromiso (fun d => "500: " ++ d) true true
      (fun _ => Except.error ()) (CalendarEventRequest.mk "S" "G" "G" none none) =
      .error 500 ((fun d => "500: " ++ d) "Failed to create event")) :=
  ⟨rfl, rfl, rfl,
    c7_invalid_date_400 wfromiso (fun d => "500: " ++ d) true true
      (fun _ => Except.error ())
      (CalendarEventRequest.mk "S" "B" "G" none none)
      (CalendarEventRequest.mk "S" "G" "B" none none)
      (CalendarEventRequest.mk "S" "G" "G" none none)
      ("Invalid isoformat string: " ++ "B") ("Invalid isoformat string: " ++ "B")
      "G" "G" "G" rfl rfl rfl rfl rfl rfl⟩

/-- C10: for `max_length ≥ 3`, `truncate_text` returns the text unchanged
when it fits and otherwise a string of length exactly `max_length` that ends
with `"..."`; for `max_length < 3` the result can be longer than
`max_length` (witnessed by `truncate_text("hello", 0)`, of length 5). -/
theorem c10_truncate_text_spec (text : List Char) (m : Int) (h3 : 3 ≤ m) :
    ((text.length : Int) ≤ m → truncate_text text m = text) ∧
    (m < (text.length : Int) →
      ((truncate_text text m).length : Int) = m ∧
      truncate_text text m = text.take (m - 3).toNat ++ ellipsisChars) ∧
    ((0 : Int) < 3 ∧
      (0 : Int) < ((truncate_text "hello".toList 0).length : Int)) := by
  refine ⟨?_, ?_, ⟨by norm_num, by decide⟩⟩
  · intro hle
    unfold truncate_text
    rw [if_pos hle]
  · intro hlt
    have htr : truncate_text text m = text.take (m - 3).toNat ++ ellipsisChars := by
      unfold truncate_text pySliceTo
      rw [if_neg (by omega), if_pos (by omega : (0 : Int) ≤ m - 3)]
    refine ⟨?_, htr⟩
    rw [htr, List.length_append, List.length_take]
    have helt : ellipsisChars.length = 3 := rfl
    rw [helt]
    omega

/-- C10 witness: the truncation theorem evaluated at a ten-character text
and `max_length = 5`. -/
theorem c10_truncate_text_spec_witness :
    ((3 : Int) ≤ 5) ∧
    ((5 : Int) < ("abcdefghij".toList.length : Int)) ∧
    ((truncate_text "abcdefghij".toList 5).length : Int) = 5 ∧
    truncate_text "abcdefghij".toList 5 =
      "abcdefghij".toList.take ((5 : Int) - 3).toNat ++ ellipsisChars :=
  ⟨by norm_num, by decide,
    ((c10_truncate_text_spec "abcdefghij".toList 5 (by norm_num)).2.1 (by decide)).1,
    ((c10_truncate_text_spec "abcdefghij".toList 5 (by norm_num)).2.1 (by decide)).2⟩
